import Mathlib

/-!
Shallow embedding of jcbsmpsn/golang-https-example: a minimal HTTPS
server (`https_server.go`) answering every request with "PONG\n", and a
minimal HTTPS client (`https_client.go`) performing one GET against
https://127.0.0.1:8443 with an empty TLS configuration.
-/

namespace HttpsExample

/-- client-authentication policy, the enum-like setting of crypto/tls
used by this repository; the Go zero value is `noClientCert`. -/
inductive ClientAuthType
  | noClientCert
  | requestClientCert
  | requireAndVerifyClientCert
  deriving DecidableEq, Repr

/-- shallow embedding of crypto/tls.Config, keeping only the fields this
repository touches. Default field values are the Go zero values, so `{}`
embeds the Go literal `&tls.Config{}`. Certificates and pools are
abstracted to names of certificates. -/
structure TLSConfig where
  certificates : List String := []
  rootCAs : Option (List String) := none
  insecureSkipVerify : Bool := false
  clientAuth : ClientAuthType := ClientAuthType.noClientCert
  clientCAs : Option (List String) := none
  deriving DecidableEq, Repr

/-- embedding of `cfg := &tls.Config{}` in https_server.go line 10. -/
def serverTLSCfg : TLSConfig := {}

/-- embedding of the `TLSClientConfig: &tls.Config{}` literal in
https_client.go lines 12-16. -/
def clientTLSConfig : TLSConfig := {}

/-- an HTTP request as the handler sees it: method, URL, headers, body.
The handler in https_server.go ignores every part of it. -/
structure Request where
  method : String
  url : String
  headers : List (String × String)
  body : String
  deriving DecidableEq, Repr

/-- state of an http.ResponseWriter: the status line once sent, and the
bytes written so far. -/
structure RWState where
  status : Option Nat
  written : String
  deriving DecidableEq, Repr

/-- embedding of ResponseWriter.Write: per net/http, if WriteHeader has
not yet been called, Write first sends an implicit 200, then appends the
bytes. -/
def rwWrite (w : RWState) (bytes : String) : RWState :=
  { status := match w.status with
      | some s => some s
      | none => some 200
    written := w.written ++ bytes }

/-- embedding of handler.ServeHTTP in https_server.go lines 21-23:
`w.Write([]byte("PONG\n"))` on a fresh ResponseWriter. -/
def serveHTTP (_req : Request) : RWState :=
  rwWrite { status := none, written := "" } "PONG\n"

/-- embedding of the http.Server literal in https_server.go lines 11-15. -/
structure HTTPServer where
  addr : String
  tlsConfig : TLSConfig
  deriving DecidableEq, Repr

/-- the `srv.ListenAndServeTLS("server.crt", "server.key")` call site in
https_server.go line 16: the server value plus the identity file names;
the call serves HTTPS by construction. -/
structure ListenAndServeTLSCall where
  server : HTTPServer
  certFile : String
  keyFile : String
  deriving DecidableEq, Repr

/-- embedding of https_server.go main, lines 9-17. -/
def serverMainCall : ListenAndServeTLSCall :=
  { server := { addr := ":8443", tlsConfig := serverTLSCfg }
    certFile := "server.crt"
    keyFile := "server.key" }

/-- the TCP port named by an http.Server address of the form ":NNNN". -/
def addrPort (a : String) : Option Nat :=
  match a.toList with
  | ':' :: rest =>
    if rest ≠ [] ∧ rest.all (fun c => c.isDigit) then
      some (rest.foldl (fun n c => 10 * n + (c.toNat - 48)) 0)
    else none
  | _ => none

/-- outcome of `srv.ListenAndServeTLS`: it either fails at startup (bad
bind or bad identity files) and returns that error, or accepts
connections indefinitely and does not return. -/
inductive ListenResult
  | startupError (e : String)
  | acceptedForever
  deriving DecidableEq, Repr

/-- what the server process ends up doing: `log.Fatal` reports the
message and terminates the process, or the server keeps serving. -/
inductive ServerOutcome
  | fatalExit (msg : String)
  | serving
  deriving DecidableEq, Repr

/-- embedding of `log.Fatal(srv.ListenAndServeTLS("server.crt",
"server.key"))` in https_server.go line 16: a startup error reaches
log.Fatal, which prints it and exits; otherwise the call never returns. -/
def serverMainRun (r : ListenResult) : ServerOutcome :=
  match r with
  | ListenResult.startupError e => ServerOutcome.fatalExit e
  | ListenResult.acceptedForever => ServerOutcome.serving

/-- observable actions of the client process, in order. `get` is the
single client.Get call; `logPrintln` is log.Println on the Get error
path; `fmtPrintln` is fmt.Println on the ReadAll error path; `printf` is
fmt.Printf on the success path; `closeBody` is the deferred
resp.Body.Close running as main returns. -/
inductive Event
  | get (url : String)
  | logPrintln (s : String)
  | fmtPrintln (s : String)
  | printf (s : String)
  | closeBody
  deriving DecidableEq, Repr

/-- whether an event is the client.Get call. -/
def Event.isGet : Event → Bool
  | Event.get _ => true
  | _ => false

/-- the fixed endpoint of https_client.go line 18. -/
def clientURL : String := "https://127.0.0.1:8443"

/-- the outcomes the environment hands the client: the result of
client.Get (an error, or a response carrying its Status string) and the
result of ioutil.ReadAll on the response body. -/
structure ClientWorld where
  getResult : Except String String
  readResult : Except String String
  deriving Repr

/-- embedding of https_client.go main, lines 11-32, as the trace of its
observable actions. On a Get error: log.Println(err) then return. On a
ReadAll error: fmt.Println(err) then return, BEFORE the `defer
resp.Body.Close()` statement is reached, so no close happens there. On
success: the defer is registered, the status and then the body are
printed, and the deferred close runs last as main returns. -/
def clientRun (w : ClientWorld) : List Event :=
  Event.get clientURL ::
    match w.getResult with
    | Except.error e => [Event.logPrintln e]
    | Except.ok status =>
      match w.readResult with
      | Except.error e => [Event.fmtPrintln e]
      | Except.ok htmlData =>
        [Event.printf (status ++ "\n"), Event.printf htmlData, Event.closeBody]

/-- files read by the client program as written: none. https_client.go
contains no file reads; its TLS configuration is the empty literal. -/
def clientFilesRead : List String := []

/-- Modelled from the spec: the platform TLS stack's validation of the
server's certificate chain, which is not code of this repository. With
`insecureSkipVerify` the check is disabled; otherwise the chain is valid
exactly when the pool in use (the configured RootCAs, or the system
roots when none are configured) contains a root covering the server's
certificate, and an uncovered chain fails with the x509 unknown
authority error. -/
def verifyServerChain (cfg : TLSConfig) (systemRoots : List String)
    (serverRoot : String) : Option String :=
  if cfg.insecureSkipVerify then none
  else
    if serverRoot ∈ cfg.rootCAs.getD systemRoots then none
    else some "x509: certificate signed by unknown authority"

/-- result handed back by client.Get once chain validation is taken into
account: a failed validation surfaces as the Get call's error, a
successful one yields the server's response status. -/
def clientGetResult (cfg : TLSConfig) (systemRoots : List String)
    (serverRoot : String) (status : String) : Except String String :=
  match verifyServerChain cfg systemRoots serverRoot with
  | some e => Except.error e
  | none => Except.ok status

/-- Modelled from the spec: the platform TLS handshake's enforcement of
the server's client-auth policy, which is not code of this repository
(the requiring configuration exists only as a README diff). Under
`requireAndVerifyClientCert` a handshake presenting no certificate is
rejected, and one presenting a certificate is accepted exactly when the
configured client trust set covers it; the other policies do not reject
over client certificates. -/
def handshakeClientAuth (policy : ClientAuthType) (clientCAs : List String)
    (presented : Option String) : Bool :=
  match policy with
  | ClientAuthType.noClientCert => true
  | ClientAuthType.requestClientCert => true
  | ClientAuthType.requireAndVerifyClientCert =>
    match presented with
    | none => false
    | some c => decide (c ∈ clientCAs)

end HttpsExample

namespace HttpsExample

/-- C1: for every request, whatever its method, path, headers or body,
the handler responds with HTTP status 200 and the body "PONG\n". -/
theorem C1_handler_pong (req : Request) :
    (serveHTTP req).status = some 200 ∧ (serveHTTP req).written = "PONG\n" :=
  ⟨rfl, rfl⟩

/-- C2: with the client's shipped configuration (validation enabled, no
custom pool) and a trust pool containing no root covering the server's
self-signed certificate, the single GET fails with the x509 trust
validation error and the client prints it instead of returning any
response: no status, body or close appears in the trace. -/
theorem C2_untrusted_root_fails (systemRoots : List String) (serverRoot : String)
    (status : String) (rr : Except String String)
    (h : serverRoot ∉ systemRoots) :
    clientGetResult clientTLSConfig systemRoots serverRoot status =
      Except.error "x509: certificate signed by unknown authority" ∧
    clientRun { getResult := clientGetResult clientTLSConfig systemRoots serverRoot status
                readResult := rr } =
      [Event.get clientURL,
       Event.logPrintln "x509: certificate signed by unknown authority"] := by
  have hv : verifyServerChain clientTLSConfig systemRoots serverRoot =
      some "x509: certificate signed by unknown authority" := by
    simp [verifyServerChain, clientTLSConfig, h]
  constructor
  · simp [clientGetResult, hv]
  · simp [clientRun, clientGetResult, hv]

/-- witness for C2 at a concrete uncovered root. -/
theorem C2_untrusted_root_fails_witness :
    clientGetResult clientTLSConfig ["other"] "self" "200 OK" =
      Except.error "x509: certificate signed by unknown authority" ∧
    clientRun { getResult := clientGetResult clientTLSConfig ["other"] "self" "200 OK"
                readResult := Except.ok "PONG\n" } =
      [Event.get clientURL,
       Event.logPrintln "x509: certificate signed by unknown authority"] :=
  C2_untrusted_root_fails ["other"] "self" "200 OK" (Except.ok "PONG\n") (by decide)

/-- C3: in every run the client performs exactly one GET, to the fixed
endpoint https://127.0.0.1:8443, and when the GET and the body read both
succeed it prints the status and then the body; no retries occur. -/
theorem C3_single_get (w : ClientWorld) :
    (clientRun w).filter Event.isGet = [Event.get clientURL] ∧
    (∀ status htmlData, w.getResult = Except.ok status →
      w.readResult = Except.ok htmlData →
      clientRun w = [Event.get clientURL, Event.printf (status ++ "\n"),
                     Event.printf htmlData, Event.closeBody]) := by
  constructor
  · cases hg : w.getResult with
    | error e => simp [clientRun, hg, Event.isGet]
    | ok s =>
      cases hr : w.readResult with
      | error e => simp [clientRun, hg, hr, Event.isGet]
      | ok d => simp [clientRun, hg, hr, Event.isGet]
  · intro status htmlData hg hr
    simp [clientRun, hg, hr]

/-- witness for C3 on a concrete successful world. -/
theorem C3_single_get_witness :
    (clientRun { getResult := Except.ok "200 OK", readResult := Except.ok "PONG\n" }).filter
        Event.isGet = [Event.get clientURL] ∧
    clientRun { getResult := Except.ok "200 OK", readResult := Except.ok "PONG\n" } =
      [Event.get clientURL, Event.printf ("200 OK" ++ "\n"),
       Event.printf "PONG\n", Event.closeBody] := by
  have h := C3_single_get { getResult := Except.ok "200 OK", readResult := Except.ok "PONG\n" }
  exact ⟨h.1, h.2 "200 OK" "PONG\n" rfl rfl⟩

/-- C4: on a GET error the client prints that error and the run ends
there; on a body-read error it prints that error and the run ends there;
in both cases there is no second GET and no status or body is printed. -/
theorem C4_error_paths (w : ClientWorld) :
    (∀ e, w.getResult = Except.error e →
      clientRun w = [Event.get clientURL, Event.logPrintln e]) ∧
    (∀ status e, w.getResult = Except.ok status → w.readResult = Except.error e →
      clientRun w = [Event.get clientURL, Event.fmtPrintln e]) := by
  constructor
  · intro e hg
    simp [clientRun, hg]
  · intro status e hg hr
    simp [clientRun, hg, hr]

/-- witness for C4 on concrete failing worlds. -/
theorem C4_error_paths_witness :
    clientRun { getResult := Except.error "connection refused"
                readResult := Except.ok "" } =
      [Event.get clientURL, Event.logPrintln "connection refused"] ∧
    clientRun { getResult := Except.ok "200 OK"
                readResult := Except.error "unexpected EOF" } =
      [Event.get clientURL, Event.fmtPrintln "unexpected EOF"] :=
  ⟨(C4_error_paths { getResult := Except.error "connection refused"
                     readResult := Except.ok "" }).1 "connection refused" rfl,
   (C4_error_paths { getResult := Except.ok "200 OK"
                     readResult := Except.error "unexpected EOF" }).2
     "200 OK" "unexpected EOF" rfl rfl⟩

/-- C5: the server binds TCP port 8443 and serves HTTPS (its main calls
ListenAndServeTLS) with the identity loaded from server.crt and
server.key. -/
theorem C5_server_config :
    addrPort serverMainCall.server.addr = some 8443 ∧
    serverMainCall.certFile = "server.crt" ∧
    serverMainCall.keyFile = "server.key" :=
  ⟨rfl, rfl, rfl⟩

/-- C6: a startup failure of ListenAndServeTLS (bad bind or bad identity
files) reaches log.Fatal, which reports the error and terminates the
process; the server does not continue serving. -/
theorem C6_startup_fatal (e : String) :
    serverMainRun (ListenResult.startupError e) = ServerOutcome.fatalExit e ∧
    serverMainRun (ListenResult.startupError e) ≠ ServerOutcome.serving := by
  refine ⟨rfl, ?_⟩
  simp [serverMainRun]

/-- C7 counterexample: the shipped client consumes no client.crt or
client.key, reads no files at all, configures no custom trust pool, and
does not disable validation; its TLS configuration is exactly the empty
literal, so none of the claimed optional behaviours exist in the code. -/
theorem C7_no_optional_identity :
    clientFilesRead = [] ∧
    clientTLSConfig.certificates = [] ∧
    clientTLSConfig.rootCAs = none ∧
    clientTLSConfig.insecureSkipVerify = false :=
  ⟨rfl, rfl, rfl, rfl⟩

/-- C7 amended: the shipped client hard-codes the empty TLS
configuration: it presents no client identity, appends no CA file to a
trust pool, and leaves trust validation enabled. -/
theorem C7_shipped_client_plain :
    clientTLSConfig = { certificates := []
                        rootCAs := none
                        insecureSkipVerify := false
                        clientAuth := ClientAuthType.noClientCert
                        clientCAs := none } :=
  rfl

/-- C8: under the require-and-verify client-auth policy, a handshake
presenting no certificate is rejected, while one presenting a
certificate covered by the server's configured trust set is accepted. -/
theorem C8_client_auth (clientCAs : List String) (c : String)
    (h : c ∈ clientCAs) :
    handshakeClientAuth ClientAuthType.requireAndVerifyClientCert clientCAs none = false ∧
    handshakeClientAuth ClientAuthType.requireAndVerifyClientCert clientCAs (some c) = true := by
  constructor
  · rfl
  · simp [handshakeClientAuth, h]

/-- witness for C8 with a concrete one-element trust set. -/
theorem C8_client_auth_witness :
    handshakeClientAuth ClientAuthType.requireAndVerifyClientCert ["clientRoot"] none = false ∧
    handshakeClientAuth ClientAuthType.requireAndVerifyClientCert ["clientRoot"]
      (some "clientRoot") = true :=
  C8_client_auth ["clientRoot"] "clientRoot" (by decide)

/-- C9: the handler is a constant function of the request: any two
requests, whatever their method, URL, headers or body, produce identical
response bytes, so nothing from the request flows into the response. -/
theorem C9_handler_constant (r r' : Request) : serveHTTP r = serveHTTP r' :=
  rfl

/-- C10: the response body is closed exactly on the full success path;
when reading the body fails, main returns before the deferred Close is
registered, so no close occurs. -/
theorem C10_close_only_on_success (w : ClientWorld) :
    Event.closeBody ∈ clientRun w ↔
      (∃ s, w.getResult = Except.ok s) ∧ (∃ d, w.readResult = Except.ok d) := by
  cases hg : w.getResult with
  | error e =>
    simp [clientRun, hg]
  | ok s =>
    cases hr : w.readResult with
    | error e => simp [clientRun, hg, hr]
    | ok d => simp [clientRun, hg, hr]

end HttpsExample
